import Mathlib

/-!
Verification of the load-combination core of the AS 3610.2 formwork
load calculator (`src/app.py`): the concrete-load estimator
`calculate_concrete_load`, the combination engine `compute_combinations`
and the combination catalog `get_combination_description`.

Floating-point arithmetic in the source is modelled over `ℚ`; the decimal
coefficient literals of the source are exact decimal rationals here.
-/

namespace LVL

/-- `calculate_concrete_load(thickness, reinforcement_percentage)` from
`src/app.py` (lines 27-32): `G_c = base_density * thickness +
reinforcement_load * thickness` with `base_density = 24` and
`reinforcement_load = 0.5 * reinforcement_percentage`. -/
def calculate_concrete_load (thickness reinforcement_percentage : ℚ) : ℚ :=
  let base_density : ℚ := 24
  let reinforcement_load : ℚ := 0.5 * reinforcement_percentage
  base_density * thickness + reinforcement_load * thickness

/-- `compute_combinations(G_f, G_c, Q_w, Q_m, Q_h, W_s, W_u, F_w, Q_x, P_c, I,
stage, gamma_d)` from `src/app.py` (lines 34-61).  The Python function starts
from an empty list, fills it in exactly one of the three stage branches
(`stage == "1" | "2" | "3"`), and returns the (possibly still empty) list of
`(vertical, horizontal)` pairs. -/
def compute_combinations (G_f G_c Q_w Q_m Q_h W_s W_u F_w Q_x P_c I : ℚ)
    (stage : String) (gamma_d : ℚ) : List (ℚ × ℚ) :=
  if stage = "1" then
    [(1.35 * G_f, 0.0),
     (gamma_d * (1.2 * G_f + 1.5 * Q_w + 1.5 * Q_m + 1.0 * W_s), gamma_d * (1.5 * Q_h)),
     (1.2 * G_f + 1.0 * W_u + 1.5 * F_w, 0.0),
     (0.9 * G_f + 1.0 * W_u + 1.5 * F_w, 0.0),
     (1.0 * G_f + 1.1 * I, 0.0)]
  else if stage = "2" then
    [(gamma_d * (1.35 * G_f + 1.35 * G_c), 0.0),
     (gamma_d * (1.2 * G_f + 1.2 * G_c + 1.5 * Q_w + 1.5 * Q_m + 1.0 * W_s + 1.5 * F_w
        + 1.5 * Q_x + 1.0 * P_c),
      gamma_d * (1.5 * Q_h)),
     (1.0 * G_f + 1.0 * G_c + 1.1 * I, 0.0)]
  else if stage = "3" then
    [(gamma_d * (1.35 * G_f + 1.35 * G_c), 0.0),
     (gamma_d * (1.2 * G_f + 1.2 * G_c + 1.5 * Q_w + 1.5 * Q_m + 1.0 * W_s + 1.5 * F_w
        + 1.5 * Q_x + 1.0 * P_c),
      gamma_d * (1.5 * Q_h)),
     (1.2 * G_f + 1.2 * G_c + 1.0 * W_u, 0.0),
     (1.0 * G_f + 1.0 * G_c + 1.1 * I, 0.0)]
  else []

/-- `get_combination_description(stage, index)` from `src/app.py`
(lines 63-86).  For the three recognized stages Python binds `descriptions`
and returns `descriptions[index] if index < len(descriptions) else
f"Combination (index+1)"`; for any other stage the local `descriptions` is
never bound and the final line raises `NameError`, modelled here as `none`. -/
def get_combination_description (stage : String) (index : Nat) : Option String :=
  if stage = "1" then
    let descriptions := [
      "1: 1.35G<sub>f</sub>",
      "2: 1.2G<sub>f</sub> + 1.5Q<sub>w</sub> + 1.5Q<sub>m</sub> + 1.5Q<sub>h</sub> + 1W<sub>s</sub>",
      "3: 1.2G<sub>f</sub> + 1W<sub>u</sub> + 1.5F<sub>w</sub>",
      "4: 0.9G<sub>f</sub> + 1W<sub>u</sub> + 1.5F<sub>w</sub>",
      "5: 1G<sub>f</sub> + 1.1I"]
    some (descriptions.getD index ("Combination " ++ toString (index + 1)))
  else if stage = "2" then
    let descriptions := [
      "6: 1.35G<sub>f</sub> + 1.35G<sub>c</sub>",
      "7: 1.2G<sub>f</sub> + 1.2G<sub>c</sub> + 1.5Q<sub>w</sub> + 1.5Q<sub>m</sub> + 1.5Q<sub>h</sub> + 1W<sub>s</sub> + 1.5F<sub>w</sub> + 1.5Q<sub>x</sub> + P<sub>c</sub>",
      "8: 1G<sub>f</sub> + 1G<sub>c</sub> + 1.1I"]
    some (descriptions.getD index ("Combination " ++ toString (index + 1)))
  else if stage = "3" then
    let descriptions := [
      "9: 1.35G<sub>f</sub> + 1.35G<sub>c</sub>",
      "10: 1.2G<sub>f</sub> + 1.2G<sub>c</sub> + 1.5Q<sub>w</sub> + 1.5Q<sub>m</sub> + 1.5Q<sub>h</sub> + 1W<sub>s</sub> + 1.5F<sub>w</sub> + 1.5Q<sub>x</sub> + P<sub>c</sub>",
      "11: 1.2G<sub>f</sub> + 1.2G<sub>c</sub> + 1.0W<sub>u</sub>",
      "12: 1G<sub>f</sub> + 1G<sub>c</sub> + 1.1I"]
    some (descriptions.getD index ("Combination " ++ toString (index + 1)))
  else none

/-!
Label parsing.  The catalog labels are HTML-ish strings such as
`"2: 1.2G<sub>f</sub> + 1.5Q<sub>w</sub> + ..."`.  To compare them with the
engine's formulas we parse a label into its list of `(coefficient, symbol)`
terms: strip the `<...>` tags, drop the leading `"N: "` numbering, split the
remainder on `+`, and read each term's leading decimal coefficient (defaulting
to 1 when absent, as in `"P<sub>c</sub>"`).
-/

/-- Remove every `<...>` tag from a character list.  The `Bool` flag is true
while inside a tag. -/
def stripTagsAux : Bool → List Char → List Char
  | _, [] => []
  | false, c :: rest =>
      if c = '<' then stripTagsAux true rest else c :: stripTagsAux false rest
  | true, c :: rest =>
      if c = '>' then stripTagsAux false rest else stripTagsAux true rest

/-- Drop the leading combination number of a label: everything up to and
including the first colon. -/
def dropLabelNum : List Char → List Char
  | [] => []
  | c :: rest => if c = ':' then rest else dropLabelNum rest

/-- Split a character list at every occurrence of a plus sign. -/
def splitPlus : List Char → List (List Char)
  | [] => [[]]
  | c :: rest =>
      match splitPlus rest with
      | [] => [[c]]
      | t :: ts => if c = '+' then [] :: t :: ts else (c :: t) :: ts

/-- Characters that may appear in a decimal coefficient. -/
def isCoeffChar (c : Char) : Bool := c.isDigit || c = '.'

/-- Read a digit list as a natural number. -/
def parseNatChars (l : List Char) : Nat :=
  l.foldl (fun n c => 10 * n + (c.toNat - 48)) 0

/-- Read a decimal literal (`"1.35"`, `"0.9"`, `"1"`, ...) as a natural number
of hundredths (`135`, `90`, `100`): every coefficient appearing in the program
has at most two decimal places, so hundredths represent them exactly while
keeping comparisons kernel-computable. -/
def centiOfChars (l : List Char) : Nat :=
  let w := l.takeWhile (fun c => c ≠ '.')
  let f := (l.dropWhile (fun c => c ≠ '.')).drop 1
  parseNatChars w * 100 + parseNatChars ((f ++ ['0', '0']).take 2)

/-- The load symbols of the program (`G_f`, `G_c`, ..., `I`); any other
symbol string is kept verbatim in `other`, so distinct unknown symbols stay
distinct. -/
inductive LoadSym where
  | Gf | Gc | Qw | Qm | Qh | Ws | Wu | Fw | Qx | Pc | I
  | other (s : String)
deriving DecidableEq

/-- Recognize a symbol string (tags already stripped, e.g. `"Gf"`). -/
def symOfString (s : String) : LoadSym :=
  if s = "Gf" then .Gf
  else if s = "Gc" then .Gc
  else if s = "Qw" then .Qw
  else if s = "Qm" then .Qm
  else if s = "Qh" then .Qh
  else if s = "Ws" then .Ws
  else if s = "Wu" then .Wu
  else if s = "Fw" then .Fw
  else if s = "Qx" then .Qx
  else if s = "Pc" then .Pc
  else if s = "I" then .I
  else .other s

/-- Split one term such as `"1.2Gf"` into its coefficient (in hundredths) and
load symbol; a term with no leading coefficient (`"Pc"`) has coefficient 1,
i.e. 100 hundredths. -/
def parseTermChars (l : List Char) : Nat × LoadSym :=
  let coeff := l.takeWhile isCoeffChar
  let sym := l.dropWhile isCoeffChar
  (if coeff = [] then 100 else centiOfChars coeff, symOfString (String.mk sym))

/-- Parse a catalog label into its `(coefficient-in-hundredths, symbol)`
terms. -/
def parseLabelTerms (label : String) : List (Nat × LoadSym) :=
  let body := (dropLabelNum (stripTagsAux false label.toList)).filter (fun c => c ≠ ' ')
  (splitPlus body).map parseTermChars

/-!
Symbolic form of the engine's formulas.  Each combination of
`compute_combinations` is a `gamma_d`-scaled or unscaled pair of linear forms;
`combList` records its vertical and horizontal terms as `(coefficient, symbol)`
lists, read off the stage branches of `compute_combinations`.  The grounding
part of the C7 theorem proves that evaluating `combList` reproduces
`compute_combinations` exactly, so the term lists are faithful to the engine.
-/

/-- One combination of the engine, symbolically: its vertical and horizontal
`(coefficient-in-hundredths, symbol)` terms, and whether `gamma_d` scales the
pair.  Coefficients are stored as natural numbers of hundredths (135 stands
for the source literal `1.35`) so that comparisons with parsed labels are
kernel-computable; `evalSpec` below interprets them as the rationals of the
source formulas, and the grounding part of the C7 theorem proves that this
interpretation reproduces `compute_combinations` exactly. -/
structure CombinationSpec where
  vterms : List (Nat × LoadSym)
  hterms : List (Nat × LoadSym)
  gammaScaled : Bool
deriving DecidableEq

/-- The symbolic form of `compute_combinations stage`, in combination order,
read off the source formulas (lines 38-59 of `src/app.py`), coefficients in
hundredths. -/
def combList (stage : String) : List CombinationSpec :=
  if stage = "1" then
    [⟨[(135, .Gf)], [], false⟩,
     ⟨[(120, .Gf), (150, .Qw), (150, .Qm), (100, .Ws)], [(150, .Qh)], true⟩,
     ⟨[(120, .Gf), (100, .Wu), (150, .Fw)], [], false⟩,
     ⟨[(90, .Gf), (100, .Wu), (150, .Fw)], [], false⟩,
     ⟨[(100, .Gf), (110, .I)], [], false⟩]
  else if stage = "2" then
    [⟨[(135, .Gf), (135, .Gc)], [], true⟩,
     ⟨[(120, .Gf), (120, .Gc), (150, .Qw), (150, .Qm), (100, .Ws),
       (150, .Fw), (150, .Qx), (100, .Pc)], [(150, .Qh)], true⟩,
     ⟨[(100, .Gf), (100, .Gc), (110, .I)], [], false⟩]
  else if stage = "3" then
    [⟨[(135, .Gf), (135, .Gc)], [], true⟩,
     ⟨[(120, .Gf), (120, .Gc), (150, .Qw), (150, .Qm), (100, .Ws),
       (150, .Fw), (150, .Qx), (100, .Pc)], [(150, .Qh)], true⟩,
     ⟨[(120, .Gf), (120, .Gc), (100, .Wu)], [], false⟩,
     ⟨[(100, .Gf), (100, .Gc), (110, .I)], [], false⟩]
  else []

/-- The valuation of the load symbols given the engine's eleven parameters. -/
def assign (G_f G_c Q_w Q_m Q_h W_s W_u F_w Q_x P_c I : ℚ) : LoadSym → ℚ
  | .Gf => G_f
  | .Gc => G_c
  | .Qw => Q_w
  | .Qm => Q_m
  | .Qh => Q_h
  | .Ws => W_s
  | .Wu => W_u
  | .Fw => F_w
  | .Qx => Q_x
  | .Pc => P_c
  | .I => I
  | .other _ => 0

/-- Evaluate a `(coefficient-in-hundredths, symbol)` term list under a
valuation. -/
def evalTerms (a : LoadSym → ℚ) (l : List (Nat × LoadSym)) : ℚ :=
  (l.map (fun t => (t.1 : ℚ) / 100 * a t.2)).sum

/-- Evaluate a symbolic combination under a valuation and a `gamma_d`. -/
def evalSpec (s : CombinationSpec) (gamma_d : ℚ) (a : LoadSym → ℚ) : ℚ × ℚ :=
  ((if s.gammaScaled then gamma_d else 1) * evalTerms a s.vterms,
   (if s.gammaScaled then gamma_d else 1) * evalTerms a s.hterms)

/-- The catalog label at `(stage, index)` and the engine's symbolic
combination at the same position both exist and the label parses to exactly
the combination's `(coefficient, symbol)` terms, up to order. -/
def alignedAt (stage : String) (index : Nat) : Prop :=
  ∃ label s, get_combination_description stage index = some label
    ∧ (combList stage)[index]? = some s
    ∧ (parseLabelTerms label).Perm (s.vterms ++ s.hterms)

/-- Unfolding lemma: the stage-1 branch of `compute_combinations`. -/
lemma compute_combinations_stage1
    (G_f G_c Q_w Q_m Q_h W_s W_u F_w Q_x P_c I gamma_d : ℚ) :
    compute_combinations G_f G_c Q_w Q_m Q_h W_s W_u F_w Q_x P_c I "1" gamma_d =
      [(1.35 * G_f, 0.0),
       (gamma_d * (1.2 * G_f + 1.5 * Q_w + 1.5 * Q_m + 1.0 * W_s), gamma_d * (1.5 * Q_h)),
       (1.2 * G_f + 1.0 * W_u + 1.5 * F_w, 0.0),
       (0.9 * G_f + 1.0 * W_u + 1.5 * F_w, 0.0),
       (1.0 * G_f + 1.1 * I, 0.0)] := by
  unfold compute_combinations
  rw [if_pos rfl]

/-- Unfolding lemma: the stage-2 branch of `compute_combinations`. -/
lemma compute_combinations_stage2
    (G_f G_c Q_w Q_m Q_h W_s W_u F_w Q_x P_c I gamma_d : ℚ) :
    compute_combinations G_f G_c Q_w Q_m Q_h W_s W_u F_w Q_x P_c I "2" gamma_d =
      [(gamma_d * (1.35 * G_f + 1.35 * G_c), 0.0),
       (gamma_d * (1.2 * G_f + 1.2 * G_c + 1.5 * Q_w + 1.5 * Q_m + 1.0 * W_s + 1.5 * F_w
          + 1.5 * Q_x + 1.0 * P_c),
        gamma_d * (1.5 * Q_h)),
       (1.0 * G_f + 1.0 * G_c + 1.1 * I, 0.0)] := by
  unfold compute_combinations
  rw [if_neg (by decide), if_pos rfl]

/-- Unfolding lemma: the stage-3 branch of `compute_combinations`. -/
lemma compute_combinations_stage3
    (G_f G_c Q_w Q_m Q_h W_s W_u F_w Q_x P_c I gamma_d : ℚ) :
    compute_combinations G_f G_c Q_w Q_m Q_h W_s W_u F_w Q_x P_c I "3" gamma_d =
      [(gamma_d * (1.35 * G_f + 1.35 * G_c), 0.0),
       (gamma_d * (1.2 * G_f + 1.2 * G_c + 1.5 * Q_w + 1.5 * Q_m + 1.0 * W_s + 1.5 * F_w
          + 1.5 * Q_x + 1.0 * P_c),
        gamma_d * (1.5 * Q_h)),
       (1.2 * G_f + 1.2 * G_c + 1.0 * W_u, 0.0),
       (1.0 * G_f + 1.0 * G_c + 1.1 * I, 0.0)] := by
  unfold compute_combinations
  rw [if_neg (by decide), if_neg (by decide), if_pos rfl]

/-- Unfolding lemma: `compute_combinations` at an unrecognized stage. -/
lemma compute_combinations_other
    (G_f G_c Q_w Q_m Q_h W_s W_u F_w Q_x P_c I gamma_d : ℚ) (stage : String)
    (h1 : stage ≠ "1") (h2 : stage ≠ "2") (h3 : stage ≠ "3") :
    compute_combinations G_f G_c Q_w Q_m Q_h W_s W_u F_w Q_x P_c I stage gamma_d = [] := by
  unfold compute_combinations
  rw [if_neg h1, if_neg h2, if_neg h3]

/-- C1: for every parameter set and every `gamma_d` (in particular 1.0 and
1.3), stage-1 `compute_combinations` returns exactly, in order, the five pairs
`(1.35*G_f, 0)`; `(gamma_d*(1.2*G_f + 1.5*Q_w + 1.5*Q_m + 1.0*W_s),
gamma_d*(1.5*Q_h))`; `(1.2*G_f + 1.0*W_u + 1.5*F_w, 0)`; `(0.9*G_f + 1.0*W_u +
1.5*F_w, 0)`; `(1.0*G_f + 1.1*I, 0)`. -/
theorem stage1_combination_formulas
    (G_f G_c Q_w Q_m Q_h W_s W_u F_w Q_x P_c I gamma_d : ℚ) :
    compute_combinations G_f G_c Q_w Q_m Q_h W_s W_u F_w Q_x P_c I "1" gamma_d =
      [(1.35 * G_f, 0),
       (gamma_d * (1.2 * G_f + 1.5 * Q_w + 1.5 * Q_m + 1.0 * W_s), gamma_d * (1.5 * Q_h)),
       (1.2 * G_f + 1.0 * W_u + 1.5 * F_w, 0),
       (0.9 * G_f + 1.0 * W_u + 1.5 * F_w, 0),
       (1.0 * G_f + 1.1 * I, 0)] := by
  rw [compute_combinations_stage1]
  norm_num

/-- C2: for every parameter set and every `gamma_d` (in particular 1.0 and
1.3), stage-2 `compute_combinations` returns exactly the ordered three pairs
of the claim and stage-3 returns exactly the ordered four pairs of the claim;
moreover at `G_f = 0.6`, `G_c = 5.0`, `Q_w = 2.0`, `Q_m = 2.5`, all other
loads 0 and `gamma_d = 1.3`, stage 2 yields vertical components 9.828, 17.511,
5.6 with horizontal components 0. -/
theorem stage2_stage3_combination_formulas
    (G_f G_c Q_w Q_m Q_h W_s W_u F_w Q_x P_c I gamma_d : ℚ) :
    (compute_combinations G_f G_c Q_w Q_m Q_h W_s W_u F_w Q_x P_c I "2" gamma_d =
      [(gamma_d * (1.35 * G_f + 1.35 * G_c), 0),
       (gamma_d * (1.2 * G_f + 1.2 * G_c + 1.5 * Q_w + 1.5 * Q_m + 1.0 * W_s + 1.5 * F_w
          + 1.5 * Q_x + 1.0 * P_c),
        gamma_d * (1.5 * Q_h)),
       (1.0 * G_f + 1.0 * G_c + 1.1 * I, 0)])
    ∧ (compute_combinations G_f G_c Q_w Q_m Q_h W_s W_u F_w Q_x P_c I "3" gamma_d =
      [(gamma_d * (1.35 * G_f + 1.35 * G_c), 0),
       (gamma_d * (1.2 * G_f + 1.2 * G_c + 1.5 * Q_w + 1.5 * Q_m + 1.0 * W_s + 1.5 * F_w
          + 1.5 * Q_x + 1.0 * P_c),
        gamma_d * (1.5 * Q_h)),
       (1.2 * G_f + 1.2 * G_c + 1.0 * W_u, 0),
       (1.0 * G_f + 1.0 * G_c + 1.1 * I, 0)])
    ∧ (compute_combinations 0.6 5.0 2.0 2.5 0 0 0 0 0 0 0 "2" 1.3 =
      [(9.828, 0), (17.511, 0), (5.6, 0)]) := by
  refine ⟨?_, ?_, ?_⟩
  · rw [compute_combinations_stage2]; norm_num
  · rw [compute_combinations_stage3]; norm_num
  · rw [compute_combinations_stage2]; norm_num

/-- C3: for all thickness and reinforcement percentage (in particular all
non-negative ones), `calculate_concrete_load t r = t * (24 + 0.5 * r)`, with
the special cases `calculate_concrete_load 0 r = 0` and
`calculate_concrete_load t 0 = 24 * t`; the function is a total pure function
with no error conditions. -/
theorem concrete_load_formula (t r : ℚ) :
    calculate_concrete_load t r = t * (24 + 0.5 * r)
    ∧ calculate_concrete_load 0 r = 0
    ∧ calculate_concrete_load t 0 = 24 * t := by
  refine ⟨?_, ?_, ?_⟩ <;> (unfold calculate_concrete_load; ring)

/-- C6: for every parameter set, every `gamma_d`, and every stage identifier
other than the three defined identifiers `"1"`, `"2"`, `"3"`,
`compute_combinations` returns the empty list rather than failing. -/
theorem unknown_stage_empty
    (G_f G_c Q_w Q_m Q_h W_s W_u F_w Q_x P_c I gamma_d : ℚ) (stage : String)
    (h1 : stage ≠ "1") (h2 : stage ≠ "2") (h3 : stage ≠ "3") :
    compute_combinations G_f G_c Q_w Q_m Q_h W_s W_u F_w Q_x P_c I stage gamma_d = [] :=
  compute_combinations_other G_f G_c Q_w Q_m Q_h W_s W_u F_w Q_x P_c I gamma_d stage h1 h2 h3

/-- Witness for C6 at the concrete unrecognized stage `"0"`. -/
theorem unknown_stage_empty_witness :
    ("0" : String) ≠ "1" ∧ ("0" : String) ≠ "2" ∧ ("0" : String) ≠ "3" ∧
    compute_combinations 1 2 3 4 5 6 7 8 9 10 11 "0" 1.3 = [] :=
  ⟨by decide, by decide, by decide,
   unknown_stage_empty 1 2 3 4 5 6 7 8 9 10 11 1.3 "0" (by decide) (by decide) (by decide)⟩

/-- C9: the catalog is defined exactly on the three recognized stages: for
every stage identifier and index, `get_combination_description stage index`
returns some label iff the stage is `"1"`, `"2"` or `"3"`; outside these the
descriptions list is never bound and the lookup fails (`none`). -/
theorem description_defined_iff_known_stage (stage : String) (index : Nat) :
    (get_combination_description stage index).isSome = true ↔
      (stage = "1" ∨ stage = "2" ∨ stage = "3") := by
  by_cases h1 : stage = "1"
  · subst h1; unfold get_combination_description; rw [if_pos rfl]; simp
  by_cases h2 : stage = "2"
  · subst h2; unfold get_combination_description
    rw [if_neg (by decide), if_pos rfl]; simp
  by_cases h3 : stage = "3"
  · subst h3; unfold get_combination_description
    rw [if_neg (by decide), if_neg (by decide), if_pos rfl]; simp
  unfold get_combination_description
  rw [if_neg h1, if_neg h2, if_neg h3]
  simp [h1, h2, h3]

/-- C10: noninterference of unused parameters: the stage-1 output of
`compute_combinations` is unchanged under arbitrary changes of `G_c`, `Q_x`
and `P_c`, and the stage-2 output is unchanged under arbitrary changes of
`W_u`. -/
theorem unused_parameter_noninterference
    (G_f G_c G_c' Q_w Q_m Q_h W_s W_u W_u' F_w Q_x Q_x' P_c P_c' I gamma_d : ℚ) :
    (compute_combinations G_f G_c Q_w Q_m Q_h W_s W_u F_w Q_x P_c I "1" gamma_d =
      compute_combinations G_f G_c' Q_w Q_m Q_h W_s W_u F_w Q_x' P_c' I "1" gamma_d)
    ∧ (compute_combinations G_f G_c Q_w Q_m Q_h W_s W_u F_w Q_x P_c I "2" gamma_d =
      compute_combinations G_f G_c Q_w Q_m Q_h W_s W_u' F_w Q_x P_c I "2" gamma_d) := by
  rw [compute_combinations_stage1, compute_combinations_stage1,
    compute_combinations_stage2, compute_combinations_stage2]
  exact ⟨rfl, rfl⟩

/-- C4: for every parameter set, each `gamma_d`-subject combination
(combination 2 of stage 1; combinations 6 and 7 of stage 2; combinations 9
and 10 of stage 3), computed at `gamma_d = 1.3`, equals exactly 1.3 times both
components of the same-index combination computed at `gamma_d = 1.0`, while
the `gamma_d`-independent combinations (1, 3, 4, 5 of stage 1; 8 of stage 2;
11 and 12 of stage 3) are identical between the two calls. -/
theorem gamma_scaling_law (G_f G_c Q_w Q_m Q_h W_s W_u F_w Q_x P_c I : ℚ) :
    ((compute_combinations G_f G_c Q_w Q_m Q_h W_s W_u F_w Q_x P_c I "1" 1.3)[1]? =
      ((compute_combinations G_f G_c Q_w Q_m Q_h W_s W_u F_w Q_x P_c I "1" 1.0)[1]?).map
        (fun p => ((1.3 : ℚ) * p.1, (1.3 : ℚ) * p.2)))
    ∧ ((compute_combinations G_f G_c Q_w Q_m Q_h W_s W_u F_w Q_x P_c I "1" 1.3)[0]? =
      (compute_combinations G_f G_c Q_w Q_m Q_h W_s W_u F_w Q_x P_c I "1" 1.0)[0]?)
    ∧ ((compute_combinations G_f G_c Q_w Q_m Q_h W_s W_u F_w Q_x P_c I "1" 1.3)[2]? =
      (compute_combinations G_f G_c Q_w Q_m Q_h W_s W_u F_w Q_x P_c I "1" 1.0)[2]?)
    ∧ ((compute_combinations G_f G_c Q_w Q_m Q_h W_s W_u F_w Q_x P_c I "1" 1.3)[3]? =
      (compute_combinations G_f G_c Q_w Q_m Q_h W_s W_u F_w Q_x P_c I "1" 1.0)[3]?)
    ∧ ((compute_combinations G_f G_c Q_w Q_m Q_h W_s W_u F_w Q_x P_c I "1" 1.3)[4]? =
      (compute_combinations G_f G_c Q_w Q_m Q_h W_s W_u F_w Q_x P_c I "1" 1.0)[4]?)
    ∧ ((compute_combinations G_f G_c Q_w Q_m Q_h W_s W_u F_w Q_x P_c I "2" 1.3)[0]? =
      ((compute_combinations G_f G_c Q_w Q_m Q_h W_s W_u F_w Q_x P_c I "2" 1.0)[0]?).map
        (fun p => ((1.3 : ℚ) * p.1, (1.3 : ℚ) * p.2)))
    ∧ ((compute_combinations G_f G_c Q_w Q_m Q_h W_s W_u F_w Q_x P_c I "2" 1.3)[1]? =
      ((compute_combinations G_f G_c Q_w Q_m Q_h W_s W_u F_w Q_x P_c I "2" 1.0)[1]?).map
        (fun p => ((1.3 : ℚ) * p.1, (1.3 : ℚ) * p.2)))
    ∧ ((compute_combinations G_f G_c Q_w Q_m Q_h W_s W_u F_w Q_x P_c I "2" 1.3)[2]? =
      (compute_combinations G_f G_c Q_w Q_m Q_h W_s W_u F_w Q_x P_c I "2" 1.0)[2]?)
    ∧ ((compute_combinations G_f G_c Q_w Q_m Q_h W_s W_u F_w Q_x P_c I "3" 1.3)[0]? =
      ((compute_combinations G_f G_c Q_w Q_m Q_h W_s W_u F_w Q_x P_c I "3" 1.0)[0]?).map
        (fun p => ((1.3 : ℚ) * p.1, (1.3 : ℚ) * p.2)))
    ∧ ((compute_combinations G_f G_c Q_w Q_m Q_h W_s W_u F_w Q_x P_c I "3" 1.3)[1]? =
      ((compute_combinations G_f G_c Q_w Q_m Q_h W_s W_u F_w Q_x P_c I "3" 1.0)[1]?).map
        (fun p => ((1.3 : ℚ) * p.1, (1.3 : ℚ) * p.2)))
    ∧ ((compute_combinations G_f G_c Q_w Q_m Q_h W_s W_u F_w Q_x P_c I "3" 1.3)[2]? =
      (compute_combinations G_f G_c Q_w Q_m Q_h W_s W_u F_w Q_x P_c I "3" 1.0)[2]?)
    ∧ ((compute_combinations G_f G_c Q_w Q_m Q_h W_s W_u F_w Q_x P_c I "3" 1.3)[3]? =
      (compute_combinations G_f G_c Q_w Q_m Q_h W_s W_u F_w Q_x P_c I "3" 1.0)[3]?) := by
  simp only [compute_combinations_stage1, compute_combinations_stage2,
    compute_combinations_stage3]
  norm_num [Prod.ext_iff]

/-- C5: for every parameter set and every `gamma_d`, `compute_combinations`
returns exactly 5, 3 and 4 combinations for stages 1, 2 and 3, and every
combination's horizontal component is zero except at the single
possibly-non-zero combination per stage (combination 2 of stage 1,
combination 7 of stage 2, combination 10 of stage 3), which can indeed be
non-zero, as exhibited at `Q_h = 1`, `gamma_d = 1`. -/
theorem combination_counts_and_horizontal_zeros
    (G_f G_c Q_w Q_m Q_h W_s W_u F_w Q_x P_c I gamma_d : ℚ) :
    ((compute_combinations G_f G_c Q_w Q_m Q_h W_s W_u F_w Q_x P_c I "1" gamma_d).length = 5)
    ∧ ((compute_combinations G_f G_c Q_w Q_m Q_h W_s W_u F_w Q_x P_c I "2" gamma_d).length = 3)
    ∧ ((compute_combinations G_f G_c Q_w Q_m Q_h W_s W_u F_w Q_x P_c I "3" gamma_d).length = 4)
    ∧ (((compute_combinations G_f G_c Q_w Q_m Q_h W_s W_u F_w Q_x P_c I "1" gamma_d)[0]?).map
        Prod.snd = some (0 : ℚ))
    ∧ (((compute_combinations G_f G_c Q_w Q_m Q_h W_s W_u F_w Q_x P_c I "1" gamma_d)[2]?).map
        Prod.snd = some (0 : ℚ))
    ∧ (((compute_combinations G_f G_c Q_w Q_m Q_h W_s W_u F_w Q_x P_c I "1" gamma_d)[3]?).map
        Prod.snd = some (0 : ℚ))
    ∧ (((compute_combinations G_f G_c Q_w Q_m Q_h W_s W_u F_w Q_x P_c I "1" gamma_d)[4]?).map
        Prod.snd = some (0 : ℚ))
    ∧ (((compute_combinations G_f G_c Q_w Q_m Q_h W_s W_u F_w Q_x P_c I "2" gamma_d)[0]?).map
        Prod.snd = some (0 : ℚ))
    ∧ (((compute_combinations G_f G_c Q_w Q_m Q_h W_s W_u F_w Q_x P_c I "2" gamma_d)[2]?).map
        Prod.snd = some (0 : ℚ))
    ∧ (((compute_combinations G_f G_c Q_w Q_m Q_h W_s W_u F_w Q_x P_c I "3" gamma_d)[0]?).map
        Prod.snd = some (0 : ℚ))
    ∧ (((compute_combinations G_f G_c Q_w Q_m Q_h W_s W_u F_w Q_x P_c I "3" gamma_d)[2]?).map
        Prod.snd = some (0 : ℚ))
    ∧ (((compute_combinations G_f G_c Q_w Q_m Q_h W_s W_u F_w Q_x P_c I "3" gamma_d)[3]?).map
        Prod.snd = some (0 : ℚ))
    ∧ (((compute_combinations 0 0 0 0 1 0 0 0 0 0 0 "1" 1)[1]?).map Prod.snd = some (1.5 : ℚ))
    ∧ (((compute_combinations 0 0 0 0 1 0 0 0 0 0 0 "2" 1)[1]?).map Prod.snd = some (1.5 : ℚ))
    ∧ (((compute_combinations 0 0 0 0 1 0 0 0 0 0 0 "3" 1)[1]?).map Prod.snd = some (1.5 : ℚ)) := by
  simp only [compute_combinations_stage1, compute_combinations_stage2,
    compute_combinations_stage3]
  norm_num

/-- C8: for every recognized stage and every index at or beyond that stage's
combination count (5, 3, 4 for stages 1, 2, 3), the catalog returns the
generic fallback label `"Combination N"` with `N = index + 1` rather than
failing. -/
theorem out_of_range_description_fallback (index : Nat) :
    (5 ≤ index → get_combination_description "1" index =
      some ("Combination " ++ toString (index + 1)))
    ∧ (3 ≤ index → get_combination_description "2" index =
      some ("Combination " ++ toString (index + 1)))
    ∧ (4 ≤ index → get_combination_description "3" index =
      some ("Combination " ++ toString (index + 1))) := by
  refine ⟨fun h => ?_, fun h => ?_, fun h => ?_⟩
  · unfold get_combination_description
    rw [if_pos rfl]
    simp [List.getD_eq_default, List.getElem?_eq_none, h]
  · unfold get_combination_description
    rw [if_neg (by decide), if_pos rfl]
    simp [List.getD_eq_default, List.getElem?_eq_none, h]
  · unfold get_combination_description
    rw [if_neg (by decide), if_neg (by decide), if_pos rfl]
    simp [List.getD_eq_default, List.getElem?_eq_none, h]

/-- Witness for C8 at the concrete out-of-range index 7: all three stage
counts are at most 7, and each stage's catalog falls back to the generic
label. -/
theorem out_of_range_description_fallback_witness :
    (5 ≤ 7 ∧ get_combination_description "1" 7 = some ("Combination " ++ toString (7 + 1)))
    ∧ (3 ≤ 7 ∧ get_combination_description "2" 7 = some ("Combination " ++ toString (7 + 1)))
    ∧ (4 ≤ 7 ∧ get_combination_description "3" 7 = some ("Combination " ++ toString (7 + 1))) :=
  ⟨⟨by decide, (out_of_range_description_fallback 7).1 (by decide)⟩,
   ⟨by decide, (out_of_range_description_fallback 7).2.1 (by decide)⟩,
   ⟨by decide, (out_of_range_description_fallback 7).2.2 (by decide)⟩⟩

/-- Grounding lemma: evaluating the symbolic term lists of `combList` under
the engine's parameters reproduces `compute_combinations` exactly, for every
stage string (recognized or not).  This certifies that `combList` is a
faithful symbolic transcription of the engine's formulas, in combination
order. -/
lemma combList_eval (G_f G_c Q_w Q_m Q_h W_s W_u F_w Q_x P_c I gamma_d : ℚ)
    (stage : String) :
    compute_combinations G_f G_c Q_w Q_m Q_h W_s W_u F_w Q_x P_c I stage gamma_d =
      (combList stage).map
        (fun s => evalSpec s gamma_d (assign G_f G_c Q_w Q_m Q_h W_s W_u F_w Q_x P_c I)) := by
  by_cases h1 : stage = "1"
  · subst h1
    rw [compute_combinations_stage1]
    unfold combList
    rw [if_pos rfl]
    dsimp only [List.map_cons, List.map_nil, evalSpec, evalTerms, assign,
      List.sum_cons, List.sum_nil]
    norm_num [Prod.ext_iff]
    and_intros <;> first | exact Or.inl (by ring) | ring
  by_cases h2 : stage = "2"
  · subst h2
    rw [compute_combinations_stage2]
    unfold combList
    rw [if_neg (by decide), if_pos rfl]
    dsimp only [List.map_cons, List.map_nil, evalSpec, evalTerms, assign,
      List.sum_cons, List.sum_nil]
    norm_num [Prod.ext_iff]
    and_intros <;> first | exact Or.inl (by ring) | ring
  by_cases h3 : stage = "3"
  · subst h3
    rw [compute_combinations_stage3]
    unfold combList
    rw [if_neg (by decide), if_neg (by decide), if_pos rfl]
    dsimp only [List.map_cons, List.map_nil, evalSpec, evalTerms, assign,
      List.sum_cons, List.sum_nil]
    norm_num [Prod.ext_iff]
    and_intros <;> first | exact Or.inl (by ring) | ring
  rw [compute_combinations_other _ _ _ _ _ _ _ _ _ _ _ _ _ h1 h2 h3]
  unfold combList
  rw [if_neg h1, if_neg h2, if_neg h3]
  rfl

/-- C7: the catalog is index-aligned with the engine and each label references
exactly the formula terms the engine uses at that stage and index.  First
part: for every parameter set, `gamma_d` and stage, the engine's output is
exactly the combination-ordered evaluation of the symbolic term lists
`combList`, so the `i`-th combination is the evaluation of the `i`-th symbolic
spec.  Second part: for each recognized stage and each valid index, the
multiset of `(coefficient, symbol)` terms parsed from the catalog label equals
the multiset of vertical and horizontal terms of the engine's symbolic spec at
that same index (coefficients in hundredths). -/
theorem catalog_alignment :
    (∀ G_f G_c Q_w Q_m Q_h W_s W_u F_w Q_x P_c I gamma_d : ℚ, ∀ stage : String,
      compute_combinations G_f G_c Q_w Q_m Q_h W_s W_u F_w Q_x P_c I stage gamma_d =
        (combList stage).map
          (fun s => evalSpec s gamma_d (assign G_f G_c Q_w Q_m Q_h W_s W_u F_w Q_x P_c I)))
    ∧ alignedAt "1" 0 ∧ alignedAt "1" 1 ∧ alignedAt "1" 2 ∧ alignedAt "1" 3
    ∧ alignedAt "1" 4
    ∧ alignedAt "2" 0 ∧ alignedAt "2" 1 ∧ alignedAt "2" 2
    ∧ alignedAt "3" 0 ∧ alignedAt "3" 1 ∧ alignedAt "3" 2 ∧ alignedAt "3" 3 := by
  refine ⟨fun G_f G_c Q_w Q_m Q_h W_s W_u F_w Q_x P_c I gamma_d stage =>
    combList_eval G_f G_c Q_w Q_m Q_h W_s W_u F_w Q_x P_c I gamma_d stage,
    ?_, ?_, ?_, ?_, ?_, ?_, ?_, ?_, ?_, ?_, ?_, ?_⟩ <;>
  exact ⟨_, _, rfl, rfl, List.isPerm_iff.mp (by rfl)⟩

end LVL
